import Mathlib

/-!
Verification development for the NEET-PG counselling-data ingestion pipeline
(`scripts/pdf_uploader.py`, class `NEETPGDataProcessor`).

The Python code is shallowly embedded:
* a table cell is an `Option String` (`None` or a text cell);
* a table row is a `List (Option String)`;
* Python string helpers (`strip`, `in`, `isdigit`, `lower`, `replace`) are
  re-implemented on `List Char` so that all definitions reduce in the kernel;
* the `re` patterns used by the parsers (`\d{4,6}`, `(\d+)\s*/\s*(\d+)`,
  `(\d+)`) are modelled by explicit leftmost-match scanners;
* a Python exception that is caught by a `try`/`except` around a row parser
  is modelled by the parser returning `none` for that row; an exception that
  escapes a function is modelled with `Except`;
* the PostgreSQL store is modelled as in-memory lists of rows
  (`counselling_data`, `processed_files`, `verification_records`); the schema
  declares no uniqueness constraint on `counselling_data`, so every insert
  into it succeeds;
* the float `sample_rate` is modelled as an exact positive fraction
  `num/den` of naturals.
-/

/-! ## Python string primitives -/

/-- Does `pat` occur at the head of `s`? (helper for substring search). -/
def listStarts : List Char → List Char → Bool
  | [], _ => true
  | _ :: _, [] => false
  | p :: ps, c :: cs => (p == c) && listStarts ps cs

/-- Does `pat` occur anywhere in `s`? (helper for Python's `in`). -/
def listHasSub (pat : List Char) : List Char → Bool
  | [] => pat.isEmpty
  | c :: cs => listStarts pat (c :: cs) || listHasSub pat cs

/-- Python's substring test `pat in s`. -/
def pyContains (s pat : String) : Bool := listHasSub pat.toList s.toList

/-- Python's `str.strip()` (leading/trailing whitespace removed). -/
def pyStrip (s : String) : String :=
  String.mk (((s.toList.dropWhile Char.isWhitespace).reverse.dropWhile
    Char.isWhitespace).reverse)

/-- Python's `str.lower()` (ASCII model). -/
def pyLower (s : String) : String := String.mk (s.toList.map Char.toLower)

/-- Python's `str.isdigit()` (ASCII model): non-empty and all digits. -/
def pyIsDigit (s : String) : Bool := !s.toList.isEmpty && s.toList.all Char.isDigit

/-- Numeric value of a digit string (Python's `int()` on an all-digit string). -/
def digitsVal (cs : List Char) : Nat := cs.foldl (fun n c => 10 * n + (c.toNat - 48)) 0

/-- Python's `int()` on a stripped all-digit string. -/
def strToNat (s : String) : Nat := digitsVal s.toList

/-- One step of Python's `str.replace`: replace every non-overlapping
occurrence of `pat` (non-empty) left to right; `fuel` bounds recursion and is
instantiated with the length of the subject so the scan never runs short. -/
def replaceAux (pat rep : List Char) : Nat → List Char → List Char
  | 0, s => s
  | _ + 1, [] => []
  | fuel + 1, c :: cs =>
    if !pat.isEmpty && listStarts pat (c :: cs) then
      rep ++ replaceAux pat rep fuel ((c :: cs).drop pat.length)
    else
      c :: replaceAux pat rep fuel cs

/-- Python's `str.replace(pat, rep)` (all occurrences). -/
def pyReplace (s pat rep : String) : String :=
  String.mk (replaceAux pat.toList rep.toList s.toList.length s.toList)

/-! ## Regex models

`re.search` finds the leftmost match; each scanner below tries every start
position from the left, exactly like the corresponding pattern. -/

/-- Model of `re.search(r'(\d{4,6})', s)`: at the leftmost position where at
least 4 consecutive digits start, capture up to 6 of them; `none` when no
position starts a run of 4 digits. (Greedy, and no backtracking is needed
because nothing follows the digit group in the pattern.) -/
def rankSearch : List Char → Option Nat
  | [] => none
  | c :: cs =>
    let run := (c :: cs).takeWhile Char.isDigit
    if 4 ≤ run.length then some (digitsVal (run.take 6))
    else rankSearch cs

/-- Leading digit run of a string, with the remainder (`\d+` at one position). -/
def takeDigits (cs : List Char) : Option (Nat × List Char) :=
  let run := cs.takeWhile Char.isDigit
  if run.isEmpty then none else some (digitsVal run, cs.drop run.length)

/-- Try `(\d+)\s*/\s*(\d+)` anchored at the current position. -/
def marksAt (cs : List Char) : Option (Nat × Nat) :=
  match takeDigits cs with
  | none => none
  | some (a, rest) =>
    match rest.dropWhile Char.isWhitespace with
    | '/' :: rest2 =>
      match takeDigits (rest2.dropWhile Char.isWhitespace) with
      | some (b, _) => some (a, b)
      | none => none
    | _ => none

/-- Model of `re.search(r'(\d+)\s*/\s*(\d+)', s)` (leftmost match). -/
def marksSearch : List Char → Option (Nat × Nat)
  | [] => none
  | c :: cs =>
    match marksAt (c :: cs) with
    | some r => some r
    | none => marksSearch cs

/-- Model of `re.search(r'(\d+)', s)` (leftmost digit run, greedy). -/
def firstDigitRun : List Char → Option Nat
  | [] => none
  | c :: cs =>
    if c.isDigit then some (digitsVal ((c :: cs).takeWhile Char.isDigit))
    else firstDigitRun cs

/-! ## FieldNormalizer (`setup_abbreviation_mappings`, `normalize_quota`,
`normalize_category`) -/

/-- `self.quota_mappings` — quota legend. -/
def quotaMappings : List (String × String) :=
  [("AI", "All India"), ("IP", "IP University Quota"),
   ("DU", "Delhi University Quota"), ("AD", "DNB Quota"),
   ("AF", "Armed Forces Medical"), ("AM", "Aligarh Muslim University"),
   ("BH", "Banaras Hindu University"), ("JM", "Jain Minority Quota"),
   ("MM", "Muslim Minority Quota"), ("NR", "Non-Resident Indian"),
   ("PS", "Management/Paid Seats Quota")]

/-- `self.category_mappings` — category legend. -/
def categoryMappings : List (String × String) :=
  [("BC", "OBC"), ("BC PwD", "OBC-PwD"), ("EW", "EWS"), ("EW PwD", "EWS-PwD"),
   ("GN", "GENERAL"), ("GN PwD", "GENERAL-PwD"), ("SC", "SC"),
   ("SC PwD", "SC-PwD"), ("ST", "ST"), ("ST PwD", "ST-PwD"),
   ("Open", "GENERAL")]

/-- `normalize_quota`: `None`/empty input gives `None`; otherwise strip and
look the token up in the quota legend, falling back to the stripped token. -/
def normalize_quota : Option String → Option String
  | none => none
  | some s =>
    if s = "" then none
    else some ((quotaMappings.lookup (pyStrip s)).getD (pyStrip s))

/-- `normalize_category`: `None`/empty input gives `"GENERAL"`; otherwise
strip and look the token up in the category legend, falling back to the
stripped token. -/
def normalize_category : Option String → String
  | none => "GENERAL"
  | some s =>
    if s = "" then "GENERAL"
    else (categoryMappings.lookup (pyStrip s)).getD (pyStrip s)

/-! ## AdmissionRecord -/

/-- The record dictionary built by the row parsers; a field that the Python
dict may lack is an `Option` (`none` both for "key absent" and for a `None`
value, which persist identically as SQL `NULL`). `page` models the
`_page_number` tag. -/
structure AdmissionRecord where
  year : Nat := 2024
  round : Nat := 1
  rank : Option Nat := none
  quota : Option String := none
  state : Option String := none
  college_name : Option String := none
  course : Option String := none
  category : Option String := none
  gender : Option String := none
  date_of_birth : Option String := none
  student_name : Option String := none
  physically_handicapped : Option String := none
  exam_name_roll : Option String := none
  marks_obtained : Option Nat := none
  max_marks : Option Nat := none
  status : Option String := none
  date_of_admission : Option String := none
  pg_teacher : Option String := none
  stipend_amount : Option Nat := none
  student_regn_no : Option String := none
  registered_council : Option String := none
  page : Option Nat := none
deriving DecidableEq, Repr

/-- Cell access `row[k]` for a row known to be long enough; out-of-range
reads are mapped to `none` only where the Python code guards them with a
length test (everywhere an unguarded read may fail we model the caught
`IndexError` explicitly). -/
def cellAt (row : List (Option String)) (k : Nat) : Option String :=
  (row.getD k none)

/-- The truthiness-plus-strip access pattern
`if row[k] and str(row[k]).strip(): ... str(row[k]).strip()`:
yields the stripped text when the cell is non-`None` and strips to a
non-empty string. -/
def strippedCell (row : List (Option String)) (k : Nat) : Option String :=
  match cellAt row k with
  | none => none
  | some s => if pyStrip s = "" then none else some (pyStrip s)

/-! ## STATE parser (`parse_state_quota_row`) -/

/-- `parse_state_quota_row`.  Guard: rows shorter than 11 cells are rejected
up front.  Rows of exactly 11 cells reach the unconditional read `row[11]`
(the marks column), which raises `IndexError`; the surrounding
`try`/`except` turns that into `None`, so such rows also produce nothing.
From 12 cells on, every unguarded read is in range and the reads at indexes
12–16 are length-guarded in the source.  The row yields a record exactly
when a 4–6 digit rank with non-zero value is recovered from column 10
(`return record if 'rank' in record and record['rank'] else None`). -/
def parse_state_quota_row (row : List (Option String)) : Option AdmissionRecord :=
  if row.length < 11 then none
  else if row.length < 12 then none
  else
    ((strippedCell row 10).bind (fun t => rankSearch t.toList)).bind fun n =>
      if n = 0 then none
      else some {
        year := 2024
        round := 1
        status := some "Reported"
        rank := some n
        state := strippedCell row 0
        college_name := strippedCell row 1
        course := (strippedCell row 2).map (fun c =>
          pyReplace (pyReplace c "MD - " "M.D. ") "MD/MS - " "M.D./M.S. ")
        student_name := strippedCell row 3
        gender := strippedCell row 4
        date_of_birth := strippedCell row 5
        quota := (strippedCell row 6).map (fun q =>
          match normalize_quota (some q) with
          | some v => if v = "" then "State Quota" else v
          | none => "State Quota")
        category := (strippedCell row 7).map (fun c => normalize_category (some c))
        physically_handicapped := strippedCell row 8
        exam_name_roll := strippedCell row 9
        marks_obtained := (strippedCell row 11).bind (fun t =>
          (marksSearch t.toList).map Prod.fst)
        max_marks := (strippedCell row 11).bind (fun t =>
          (marksSearch t.toList).map Prod.snd)
        pg_teacher := strippedCell row 12
        stipend_amount := (strippedCell row 13).bind (fun t =>
          firstDigitRun t.toList)
        student_regn_no := strippedCell row 14
        registered_council := strippedCell row 15
        date_of_admission := strippedCell row 16 }

/-! ## Round-number resolution (`extract_round_number` and the content
override in `process_all_india_pdf`) -/

/-- `extract_round_number(filename)`: branch order is `round 4`/`pg_round_4`,
then `round 5`/`stray`, then `round 3`/`pg_round_3`, then a dead
`pg_round_4` special case, then the default `1`. -/
def extract_round_number (filename : String) : Nat :=
  let f := pyLower filename
  if pyContains f "round 4" || pyContains f "pg_round_4" then 4
  else if pyContains f "round 5" || pyContains f "stray" then 5
  else if pyContains f "round 3" || pyContains f "pg_round_3" then 3
  else if pyContains f "pg_round_4" then 4
  else 1

/-- Round resolution in `process_all_india_pdf`: the filename-derived round,
overridden to 5 when the first page's text mentions "stray"
(`if 'stray' in first_page_text.lower(): round_number = 5`). -/
def resolveRound (filename firstPageText : String) : Nat :=
  if pyContains (pyLower firstPageText) "stray" then 5
  else extract_round_number filename

/-! ## ALL_INDIA_MULTI_ROUND parser (`extract_round_data`,
`parse_multi_round_table`) -/

/-- A stripped cell value that disqualifies a field: `['-', '']`. -/
def isPlaceholder (s : String) : Bool := s == "-" || s == ""

/-- `extract_round_data(row, rank, round_num, start_col, end_col)`.
The guard rejects the round window when `start_col` is out of range, the
quota cell is `None`/empty, or it strips to a placeholder.  College, course,
status and category are read from the fixed offsets `start_col+1` …
`start_col+4` (length-guarded in the source, hence `cellAt`); `end_col` is
unused in the source body.  A record is returned only when both
`college_name` and `course` were set. -/
def extract_round_data (row : List (Option String)) (rank roundNum startCol endCol : Nat) :
    Option AdmissionRecord :=
  if row.length ≤ startCol then none
  else
    (cellAt row startCol).bind fun q =>
      if q = "" then none
      else if isPlaceholder (pyStrip q) then none
      else
        let college : Option String :=
          (cellAt row (startCol + 1)).bind fun c =>
            if isPlaceholder (pyStrip c) then none else some (pyStrip c)
        let course : Option String :=
          (cellAt row (startCol + 2)).bind fun c =>
            if isPlaceholder (pyStrip c) then none else some (pyStrip c)
        let status : Option String :=
          (cellAt row (startCol + 3)).bind fun c =>
            if isPlaceholder (pyStrip c) then none else some (pyStrip c)
        let category : Option String :=
          (cellAt row (startCol + 4)).bind fun c =>
            if isPlaceholder (pyStrip c) then none
            else some (normalize_category (some (pyStrip c)))
        if college.isSome && course.isSome then
          some { rank := some rank, round := roundNum, year := 2024,
                 quota := normalize_quota (some (pyStrip q)),
                 college_name := college, course := course,
                 status := status, category := category }
        else none

/-- The per-row body of `parse_multi_round_table`: rows shorter than 8 cells
are skipped; the rank must come from column 0 as an all-digit stripped cell;
each of the fixed round windows `(1,1,5), (2,5,9), (3,9,13)` may contribute
one record, tagged with the page number. -/
def multiRoundRowRecords (row : List (Option String)) (page : Nat) : List AdmissionRecord :=
  if row.length < 8 then []
  else
    match cellAt row 0 with
    | none => []
    | some s =>
      if pyIsDigit (pyStrip s) then
        ([(1, 1, 5), (2, 5, 9), (3, 9, 13)] : List (Nat × Nat × Nat)).filterMap
          (fun cfg =>
            if cfg.2.1 < row.length then
              (extract_round_data row (strToNat (pyStrip s)) cfg.1 cfg.2.1 cfg.2.2).map
                (fun r => { r with page := some page })
            else none)
      else []

/-- `parse_multi_round_table(table, default_round, page_number)`: the first
two rows are header rows (`if i < 2: continue`); `default_round` is unused
in the source body. -/
def parse_multi_round_table (table : List (List (Option String)))
    (defaultRound page : Nat) : List AdmissionRecord :=
  (table.drop 2).bind (fun row => multiRoundRowRecords row page)

/-! ## ALL_INDIA_SINGLE_ROUND parser (`parse_single_round_row`,
`parse_single_round_table`) -/

/-- `parse_single_round_row(row, round_number)`.  Columns 1–4 are read
unconditionally, so a row shorter than 5 cells ends in an `IndexError`
swallowed by the `try`/`except` (`None`).  The rank (column 1) must be an
all-digit stripped cell, else `return None`.  Category (column 5) and
status (column 6) are only read when the row is long enough.  A record is
returned only when rank, college and course are all present. -/
def parse_single_round_row (row : List (Option String)) (roundNumber : Nat) :
    Option AdmissionRecord :=
  if row.length < 5 then none
  else
    match cellAt row 1 with
    | none => none
    | some s =>
      if pyIsDigit (pyStrip s) then
        let college := strippedCell row 3
        let course := strippedCell row 4
        let category : Option String :=
          if 5 < row.length then
            match cellAt row 5 with
            | some c =>
              if isPlaceholder (pyStrip c) then none
              else some (normalize_category (some (pyStrip c)))
            | none => none
          else none
        let status : Option String :=
          if 6 < row.length then
            match cellAt row 6 with
            | some c => if isPlaceholder (pyStrip c) then none else some (pyStrip c)
            | none => none
          else none
        if college.isSome && course.isSome then
          some { round := roundNumber, year := 2024,
                 rank := some (strToNat (pyStrip s)),
                 quota := (strippedCell row 2).bind (fun q => normalize_quota (some q)),
                 college_name := college, course := course,
                 category := category, status := status }
        else none
      else none

/-- `parse_single_round_table(table, round_number, page_number)`: one header
row is skipped, rows shorter than 5 cells are skipped, and surviving records
are tagged with the page number. -/
def parse_single_round_table (table : List (List (Option String)))
    (roundNumber page : Nat) : List AdmissionRecord :=
  (table.drop 1).filterMap (fun row =>
    if row.length < 5 then none
    else (parse_single_round_row row roundNumber).map
      (fun r => { r with page := some page }))

/-! ## Free-text fallback (`parse_all_india_text`) -/

/-- A Python exception escaping a function. -/
inductive PyError where
  | attributeError
deriving DecidableEq, Repr

/-- Coarse model of the first fallback pattern
`(\d+)\s+(AI|IP|DU|All India)\s+([^M]+?)(M\.[DS]\..+?)(?:Reported|...)` on
one text line: an all-digit first token followed by a recognised quota
token.  The regex detail does not matter for any claim below (the fallback
parsers are only reasoned about through their error behaviour), but the
shape — rank, quota, college, course, fixed year, the caller's round and
page — mirrors the record the source builds on a match. -/
def matchAllIndiaLine (line : String) (roundNumber page : Nat) :
    Option AdmissionRecord :=
  match (line.split Char.isWhitespace).filter (fun t => t ≠ "") with
  | rank :: quota :: college :: course :: _ =>
    if pyIsDigit rank && (quota == "AI" || quota == "IP" || quota == "DU") then
      some { rank := some (strToNat rank),
             quota := normalize_quota (some quota),
             college_name := some college, course := some course,
             year := 2024, round := roundNumber, page := some page }
    else none
  | _ => none

/-- `parse_all_india_text(text, round_number, page_number)`.  The very first
statement is `lines = text.split('\n')`; when the page reader returned no
text (`page.extract_text()` gave `None`) this raises `AttributeError`
(`'NoneType' object has no attribute 'split'`) — there is no `or ""` guard
here, unlike the first-page probe in `process_all_india_pdf`.  The error
escapes the parser and is only caught by the whole-document handler in
`process_pdf_file`.  With a real string the function is total: each line
either matches a pattern and contributes one record or is skipped. -/
def parse_all_india_text (text : Option String) (roundNumber page : Nat) :
    Except PyError (List AdmissionRecord) :=
  match text with
  | none => .error .attributeError
  | some t => .ok ((t.splitOn "\n").filterMap
      (fun line => matchAllIndiaLine line roundNumber page))

/-! ## Record store model

`create_tables` declares a uniqueness constraint only on
`processed_files.filename`; `counselling_data` has none, so in this model
every insert into it succeeds (the `psycopg2.IntegrityError` branch of
`insert_records` is dead) and ids are handed out sequentially. -/

/-- One `processed_files` row. -/
structure ProcessedFile where
  id : Nat
  filename : String
  file_type : String
  records_count : Nat
  sample_size : Option Nat
deriving DecidableEq, Repr

/-- One `verification_records` row. -/
structure VerificationRecord where
  counselling_data_id : Nat
  processed_file_id : Nat
  page_number : Nat
deriving DecidableEq, Repr

/-- The database state: the three tables touched by ingestion, with the two
serial-id counters. -/
structure Store where
  counselling : List (Nat × AdmissionRecord) := []
  nextId : Nat := 1
  processed : List ProcessedFile := []
  nextPfId : Nat := 1
  verifs : List VerificationRecord := []
deriving DecidableEq, Repr

/-- `insert_records` on one list of records: each row is appended to
`counselling_data` with a fresh serial id (no unique constraint, so nothing
is ever skipped). -/
def insertRecords (s : Store) : List AdmissionRecord → Store
  | [] => s
  | r :: rs =>
    insertRecords
      { s with counselling := s.counselling ++ [(s.nextId, r)],
               nextId := s.nextId + 1 } rs

/-- The batching loop of `process_pdf_file`: records are flushed every
`batch_size = 100`; the fuel argument (instantiated with the stream length)
only serves structural recursion. -/
def chunksAux : Nat → List AdmissionRecord → List (List AdmissionRecord)
  | 0, _ => []
  | _ + 1, [] => []
  | fuel + 1, l => l.take 100 :: chunksAux fuel (l.drop 100)

/-- The batches committed for one document's record stream. -/
def chunks100 (l : List AdmissionRecord) : List (List AdmissionRecord) :=
  chunksAux l.length l

/-- Externally visible commit-order events of one `process_pdf_file` run. -/
inductive IngestEvent where
  | commitBatch (inserted : Nat)
  | insertProcessedFile (filename : String)
  | commitVerification (count : Nat)
deriving DecidableEq, Repr

/-- The float `sample_rate`, modelled as the exact positive fraction
`num/den`. -/
structure SampleRate where
  num : Nat
  den : Nat
deriving DecidableEq, Repr

/-- `int(1/sample_rate)` — Python `int()` truncates toward zero, which for
the positive value `1/(num/den) = den/num` is natural-number division. -/
def verifStride (r : SampleRate) : Nat := r.den / r.num

/-- `int(total_records * sample_rate)` for the `sample_size` column. -/
def sampleSizeOf (total : Nat) (r : SampleRate) : Nat := total * r.num / r.den

/-- Modelled from the spec: the claim's stride "k = round(1/r)" —
nearest-integer rounding of `den/num`, used only to compare the spec's
sampling rule with the implemented one. -/
def specRoundStride (r : SampleRate) : Nat := (2 * r.den + r.num) / (2 * r.num)

/-- Python's `range(0, n, k)` (`k ≥ 1`): `⌈n/k⌉` indices starting at 0. -/
def pyRange (n k : Nat) : List Nat := List.range' 0 ((n + k - 1) / k) k

/-- The SQL match `rank = %s AND college_name = %s AND course = %s` with the
record's fields as parameters: a `NULL` parameter or a `NULL` column never
compares equal, so both sides must be present and equal. -/
def sqlEqSome {α : Type} [DecidableEq α] : Option α → Option α → Bool
  | some a, some b => decide (a = b)
  | _, _ => false

/-- Does a stored `counselling_data` row match the sampled record under the
verification lookup query? -/
def matchesLookup (stored rec : AdmissionRecord) : Bool :=
  sqlEqSome stored.rank rec.rank &&
  sqlEqSome stored.college_name rec.college_name &&
  sqlEqSome stored.course rec.course

/-- `SELECT id FROM counselling_data WHERE ... ORDER BY id DESC LIMIT 1`:
the most recently inserted matching row. -/
def lookupLatest (rows : List (Nat × AdmissionRecord)) (rec : AdmissionRecord) :
    Option Nat :=
  (rows.reverse.find? (fun p => matchesLookup p.2 rec)).map (fun p => p.1)

/-- The truthiness test `record.get('_page_number')` (0 would be falsy, but
page tags are always `page_num + 1 ≥ 1`). -/
def hasPage (rec : AdmissionRecord) : Bool :=
  match rec.page with
  | some p => decide (p ≠ 0)
  | none => false

/-- The verification pass of `process_pdf_file`: re-stream the document,
sample indices `range(0, len(all_records), int(1/sample_rate))`, look each
sampled record's persisted id up by `(rank, college_name, course)` against
the newest matching row, and create a `verification_records` row when the
lookup succeeds and the record carries a page tag. -/
def verificationRows (doc : List AdmissionRecord) (rows : List (Nat × AdmissionRecord))
    (pfId : Nat) (r : SampleRate) : List VerificationRecord :=
  (pyRange doc.length (verifStride r)).filterMap (fun idx =>
    (doc.get? idx).bind (fun rec =>
      (lookupLatest rows rec).bind (fun cid =>
        if hasPage rec then
          some { counselling_data_id := cid, processed_file_id := pfId,
                 page_number := rec.page.getD 0 }
        else none)))

/-- `process_pdf_file(pdf_path, file_type, enable_verification, sample_rate)`
for a document whose record stream yields `doc` (the parsers already
dropped malformed rows) and whose base filename is `fname`.

* If a `processed_files` row with this filename exists, the function returns
  immediately: no extraction, no insert, no event.
* Otherwise the stream is committed in batches of 100; with no uniqueness
  constraint on `counselling_data`, `total_records = doc.length`.
* Only when `total_records > 0` is a `processed_files` row inserted (after
  all batch commits), followed by the optional verification pass over a
  fresh run of the same stream. -/
def processPdfFile (doc : List AdmissionRecord) (fname ftype : String)
    (enableVerification : Bool) (r : SampleRate) (s : Store) :
    Store × List IngestEvent :=
  if s.processed.any (fun p => p.filename == fname) then (s, [])
  else
    let s1 := insertRecords s doc
    let evs := (chunks100 doc).map (fun b => IngestEvent.commitBatch b.length)
    if doc.length = 0 then (s1, evs)
    else
      let pf : ProcessedFile :=
        { id := s1.nextPfId, filename := fname, file_type := ftype,
          records_count := doc.length,
          sample_size := if enableVerification
            then some (sampleSizeOf doc.length r) else none }
      let s2 := { s1 with processed := s1.processed ++ [pf],
                          nextPfId := s1.nextPfId + 1 }
      if enableVerification then
        let nv := verificationRows doc s2.counselling pf.id r
        ({ s2 with verifs := s2.verifs ++ nv },
         evs ++ [IngestEvent.insertProcessedFile fname,
                 IngestEvent.commitVerification nv.length])
      else
        (s2, evs ++ [IngestEvent.insertProcessedFile fname])

/-! ## Demonstration rows (concrete inputs used by witnesses and
counterexamples) -/

/-- A well-formed 12-cell STATE row (the spec's §8 scenario row). -/
def demoStateRow : List (Option String) :=
  [some "Delhi", some "Example College", some "MD - General Medicine",
   some "A. Student", some "F", some "01-01-2000", some "AI", some "GN",
   some "No", some "ROLL1", some "Rank 25579", some "120/200"]

/-- The record `parse_state_quota_row` produces from `demoStateRow`. -/
def demoStateRec : AdmissionRecord :=
  { year := 2024, round := 1, status := some "Reported", rank := some 25579,
    state := some "Delhi", college_name := some "Example College",
    course := some "M.D. General Medicine", student_name := some "A. Student",
    gender := some "F", date_of_birth := some "01-01-2000",
    quota := some "All India", category := some "GENERAL",
    physically_handicapped := some "No", exam_name_roll := some "ROLL1",
    marks_obtained := some 120, max_marks := some 200 }



/-- A 5-cell single-round row with a one-digit rank in column 1. -/
def srRowOneDigit : List (Option String) :=
  [some "1", some "7", some "AI", some "Example College", some "MD Medicine"]

/-- A 5-cell single-round row with a seven-digit rank in column 1. -/
def srRowSevenDigits : List (Option String) :=
  [some "1", some "1234567", some "AI", some "Example College", some "MD Medicine"]

/-- An 8-cell multi-round row with a one-digit rank and a filled round-1
window. -/
def mrRowOneDigit : List (Option String) :=
  [some "9", some "AI", some "Example College", some "MD Medicine",
   some "Reported", none, none, none]

/-- An 8-cell multi-round row with a seven-digit rank and a filled round-1
window. -/
def mrRowSevenDigits : List (Option String) :=
  [some "7654321", some "AI", some "Example College", some "MD Medicine",
   some "Reported", none, none, none]

/-- A STATE row of exactly 11 cells with a clean 5-digit rank in column 10. -/
def stateRow11 : List (Option String) :=
  [some "Delhi", some "Example College", some "MD - General Medicine",
   some "A. Student", some "F", some "01-01-2000", some "AI", some "GN",
   some "No", some "ROLL1", some "25579"]

/-- A 12-cell STATE row whose rank cell holds the 4-digit run `0000`. -/
def stateRowZeroRank : List (Option String) :=
  [some "Delhi", some "Example College", some "MD - General Medicine",
   some "A. Student", some "F", some "01-01-2000", some "AI", some "GN",
   some "No", some "ROLL1", some "0000", some "120/200"]

/-- The fixed set of category tokens that the repository's legacy scanning
parser (`parse_all_india_row` in the root `pdf_uploader.py`) tests
membership in; the spec's "fixed set of known category tokens". -/
def knownCategoryTokens : List String := ["GENERAL", "OBC", "SC", "ST", "EWS"]

/-- A multi-round row whose round-1 window has a 2-character institute
cell, a course cell with no medical-course marker, and an unknown category
token. -/
def mrCounterRow : List (Option String) :=
  [some "7", some "AI", some "XY", some "Botany", some "-", some "FOO",
   none, none]


/-- The record `extract_round_data` emits from `mrCounterRow`'s round-1
window. -/
def mrCounterRec : AdmissionRecord :=
  { rank := some 7, round := 1, year := 2024, quota := some "All India",
    college_name := some "XY", course := some "Botany", status := none,
    category := some "FOO" }

/-- A record carrying everything the verification lookup and insert need:
rank, college, course (for the SQL match) and a truthy page tag. -/
def completeRec (rec : AdmissionRecord) : Bool :=
  rec.rank.isSome && rec.college_name.isSome && rec.course.isSome && hasPage rec

/-- Sanity evaluation: on the 12-cell scenario row the STATE parser
recovers rank 25579, the normalized quota and category, the renamed course
prefix and the split marks — exactly the record the layout promises. -/
theorem demo_state_row_eval :
    parse_state_quota_row demoStateRow = some demoStateRec := by decide

/-! ## Claim C9 -/

/-- C9: every record emitted by the STATE parser unconditionally carries
`year = 2024`, `round = 1` and `status = "Reported"`, whatever the row
contains; the parser takes no filename, so the filename-driven round
heuristic cannot influence STATE records. -/
theorem state_parser_fixed_defaults :
    ∀ (row : List (Option String)) (rec : AdmissionRecord),
      parse_state_quota_row row = some rec →
      rec.year = 2024 ∧ rec.round = 1 ∧ rec.status = some "Reported" := by
  intro row rec h
  simp only [parse_state_quota_row] at h
  split at h
  · exact absurd h (by simp)
  split at h
  · exact absurd h (by simp)
  cases ho : (strippedCell row 10).bind (fun t => rankSearch t.toList) with
  | none => rw [ho] at h; exact absurd h (by simp)
  | some n =>
    rw [ho, Option.some_bind] at h
    split at h
    · exact absurd h (by simp)
    · obtain rfl : _ = rec := Option.some.inj h
      exact ⟨rfl, rfl, rfl⟩

/-- C9 witness: the defaults hold on the concrete row `demoStateRow`. -/
theorem state_parser_fixed_defaults_witness :
    demoStateRec.year = 2024 ∧ demoStateRec.round = 1 ∧
    demoStateRec.status = some "Reported" :=
  state_parser_fixed_defaults demoStateRow demoStateRec (by decide)

/-! ## Claim C3 -/

/-- C3 (code bug): a page with no tables whose `extract_text()` returns no
string is not treated as an empty page — `parse_all_india_text` immediately
evaluates `text.split('\n')` and raises `AttributeError`, which escapes the
parser (it is only caught by the document-level handler, which aborts the
rest of the document). -/
theorem text_fallback_none_raises :
    ∀ (roundNumber page : Nat),
      parse_all_india_text none roundNumber page =
        Except.error PyError.attributeError :=
  fun _ _ => rfl

/-! ## Claim C7 -/

/-- C7 counterexample: a filename containing both a round-4 token and
"stray" resolves to round 4, not the terminal round 5 (the `round 4` branch
is checked first); and the token `round 2` is not recognised at all, so a
filename containing it resolves to the default 1, not 2. -/
theorem round_resolution_counterexample :
    pyContains (pyLower "NEET PG Round 4 stray vacancy.pdf") "stray" = true ∧
    extract_round_number "NEET PG Round 4 stray vacancy.pdf" = 4 ∧
    pyContains (pyLower "NEET PG Round 2 allotment.pdf") "round 2" = true ∧
    extract_round_number "NEET PG Round 2 allotment.pdf" = 1 := by decide

/-- C7 (amended): filename round resolution checks its tokens in priority
order — `round 4`/`pg_round_4` give 4; otherwise `round 5` or `stray` give
5; otherwise `round 3`/`pg_round_3` give 3; otherwise the default is 1 (so
"stray" yields the terminal round only when no round-4 token is present,
and `round 1`/`round 2` are not recognised tokens).  A "stray" mention in
the first page's text unconditionally overrides the filename-derived round
to 5. -/
theorem round_resolution_rules :
    (∀ f : String,
      (pyContains (pyLower f) "round 4" || pyContains (pyLower f) "pg_round_4") = true →
      extract_round_number f = 4) ∧
    (∀ f : String,
      (pyContains (pyLower f) "round 4" || pyContains (pyLower f) "pg_round_4") = false →
      (pyContains (pyLower f) "round 5" || pyContains (pyLower f) "stray") = true →
      extract_round_number f = 5) ∧
    (∀ f : String,
      (pyContains (pyLower f) "round 4" || pyContains (pyLower f) "pg_round_4") = false →
      (pyContains (pyLower f) "round 5" || pyContains (pyLower f) "stray") = false →
      (pyContains (pyLower f) "round 3" || pyContains (pyLower f) "pg_round_3") = true →
      extract_round_number f = 3) ∧
    (∀ f : String,
      (pyContains (pyLower f) "round 4" || pyContains (pyLower f) "pg_round_4") = false →
      (pyContains (pyLower f) "round 5" || pyContains (pyLower f) "stray") = false →
      (pyContains (pyLower f) "round 3" || pyContains (pyLower f) "pg_round_3") = false →
      extract_round_number f = 1) ∧
    (∀ f t : String, pyContains (pyLower t) "stray" = true → resolveRound f t = 5) ∧
    (∀ f t : String, pyContains (pyLower t) "stray" = false →
      resolveRound f t = extract_round_number f) := by
  refine ⟨?_, ?_, ?_, ?_, ?_, ?_⟩
  · intro f h; simp [extract_round_number, h]
  · intro f h4 h5; simp [extract_round_number, h4, h5]
  · intro f h4 h5 h3; simp [extract_round_number, h4, h5, h3]
  · intro f h4 h5 h3
    rw [Bool.or_eq_false_iff] at h4 h5 h3
    simp [extract_round_number, h4.1, h4.2, h5.1, h5.2, h3.1, h3.2]
  · intro f t h; simp [resolveRound, h]
  · intro f t h; simp [resolveRound, h]

/-- C7 witness: the amended rules applied at concrete filenames and page
texts. -/
theorem round_resolution_rules_witness :
    extract_round_number "121. Round 4 Final Result (1)_XENMENTOR.pdf" = 4 ∧
    extract_round_number "137. Round 5 Special Stray Final Result.pdf" = 5 ∧
    extract_round_number "104. Round 3 Final Result_XENMENTOR.pdf" = 3 ∧
    extract_round_number "DOC-20240822-WA0000.pdf" = 1 ∧
    resolveRound "some.pdf" "Special Stray Vacancy Round" = 5 ∧
    resolveRound "104. Round 3 Final Result.pdf" "Round 1 Round 2 Round 3" =
      extract_round_number "104. Round 3 Final Result.pdf" :=
  ⟨round_resolution_rules.1 _ (by decide),
   round_resolution_rules.2.1 _ (by decide) (by decide),
   round_resolution_rules.2.2.1 _ (by decide) (by decide) (by decide),
   round_resolution_rules.2.2.2.1 _ (by decide) (by decide) (by decide),
   round_resolution_rules.2.2.2.2.1 _ _ (by decide),
   round_resolution_rules.2.2.2.2.2 _ _ (by decide)⟩

/-! ## Claim C8 -/

/-- C8: `normalize_category` is total and never "null" — `None`/empty input
resolves to the canonical `"GENERAL"`, legend tokens resolve to their
canonical form, and any other non-empty token passes through unchanged;
`normalize_quota` on non-empty input resolves legend tokens to their
canonical form and passes other tokens through unchanged.  (Token inputs
are whitespace-free at the edges — `pyStrip s = s` — matching how the
parsers hand already-stripped cell values to the normalizers; both
functions are pure Lean functions, so they have no side effects and no
failure modes.) -/
theorem normalizers_contract :
    (normalize_category none = "GENERAL") ∧
    (normalize_category (some "") = "GENERAL") ∧
    (∀ k v : String, (k, v) ∈ categoryMappings → normalize_category (some k) = v) ∧
    (∀ s : String, s ≠ "" → pyStrip s = s → categoryMappings.lookup s = none →
      normalize_category (some s) = s) ∧
    (∀ k v : String, (k, v) ∈ quotaMappings → normalize_quota (some k) = some v) ∧
    (∀ s : String, s ≠ "" → pyStrip s = s → quotaMappings.lookup s = none →
      normalize_quota (some s) = some s) := by
  refine ⟨by decide, by decide, ?_, ?_, ?_, ?_⟩
  · intro k v h; fin_cases h <;> decide
  · intro s hne hstrip hlook
    simp only [normalize_category, if_neg hne, hstrip, hlook, Option.getD_none]
  · intro k v h; fin_cases h <;> decide
  · intro s hne hstrip hlook
    simp only [normalize_quota, if_neg hne, hstrip, hlook, Option.getD_none]

/-- C8 witness: the contract applied at concrete tokens — a mapped and an
unmapped category, a mapped and an unmapped quota. -/
theorem normalizers_contract_witness :
    normalize_category (some "BC") = "OBC" ∧
    normalize_category (some "XYZ") = "XYZ" ∧
    normalize_quota (some "AI") = some "All India" ∧
    normalize_quota (some "NEWCODE") = some "NEWCODE" :=
  ⟨normalizers_contract.2.2.1 "BC" "OBC" (by decide),
   normalizers_contract.2.2.2.1 "XYZ" (by decide) (by decide) (by decide),
   normalizers_contract.2.2.2.2.1 "AI" "All India" (by decide),
   normalizers_contract.2.2.2.2.2 "NEWCODE" (by decide) (by decide) (by decide)⟩

/-! ## Claim C10 -/



/-- C10: the ALL_INDIA parsers accept a rank only from a cell whose entire
stripped content is digits — in the multi-round parser a row whose rank
cell (column 0) is missing or not all-digit yields no records for any round
window, and likewise for the single-round parser's rank cell (column 1);
when the stripped cell is all-digit, its full value becomes the rank, with
no length restriction (one-digit and seven-digit ranks are accepted, unlike
the STATE parser's 4-to-6-digit regex). -/
theorem all_india_rank_digit_rule :
    (∀ (row : List (Option String)) (page : Nat) (s : String),
      row.getD 0 none = some s → pyIsDigit (pyStrip s) = false →
      multiRoundRowRecords row page = []) ∧
    (∀ (row : List (Option String)) (page : Nat),
      row.getD 0 none = none → multiRoundRowRecords row page = []) ∧
    (∀ (row : List (Option String)) (rn : Nat) (s : String),
      row.getD 1 none = some s → pyIsDigit (pyStrip s) = false →
      parse_single_round_row row rn = none) ∧
    (∀ (row : List (Option String)) (rn : Nat),
      row.getD 1 none = none → parse_single_round_row row rn = none) ∧
    ((multiRoundRowRecords mrRowOneDigit 1).map (fun r => r.rank) = [some 9]) ∧
    ((multiRoundRowRecords mrRowSevenDigits 1).map (fun r => r.rank) = [some 7654321]) ∧
    ((parse_single_round_row srRowOneDigit 4).map (fun r => r.rank) = some (some 7)) ∧
    ((parse_single_round_row srRowSevenDigits 5).map (fun r => r.rank) =
      some (some 1234567)) := by
  refine ⟨?_, ?_, ?_, ?_, by decide, by decide, by decide, by decide⟩
  · intro row page s h hd
    simp only [multiRoundRowRecords, cellAt, h, hd]
    split <;> simp
  · intro row page h
    simp only [multiRoundRowRecords, cellAt, h]
    split <;> simp
  · intro row rn s h hd
    simp only [parse_single_round_row, cellAt, h, hd]
    split <;> simp
  · intro row rn h
    simp only [parse_single_round_row, cellAt, h]
    split <;> simp

/-- C10 witness: the digit-only rejection applied at a concrete row whose
rank cell contains a non-digit character. -/
theorem all_india_rank_digit_rule_witness :
    multiRoundRowRecords
      [some "12a4", some "AI", some "Example College", some "MD Medicine",
       some "Reported", none, none, none] 1 = [] ∧
    parse_single_round_row
      [some "1", some "12a4", some "AI", some "Example College",
       some "MD Medicine"] 4 = none :=
  ⟨all_india_rank_digit_rule.1 _ 1 "12a4" (by decide) (by decide),
   all_india_rank_digit_rule.2.2.1 _ 4 "12a4" (by decide) (by decide)⟩

/-! ## Claim C5 -/



/-- C5 counterexample: two rows that satisfy the claim's hypotheses — at
least 11 cells and a 4-to-6-digit run in the rank cell — but from which the
parser emits no record.  An 11-cell row passes the `len(row) >= 11` guard
yet dies on the unconditional read `row[11]` (an `IndexError` the
`try`/`except` converts to `None`); and a row whose digit run has value 0
is discarded by the truthiness gate `record['rank']`. -/
theorem state_rank_counterexample :
    stateRow11.length = 11 ∧
    rankSearch (pyStrip "25579").toList = some 25579 ∧
    parse_state_quota_row stateRow11 = none ∧
    stateRowZeroRank.length = 12 ∧
    rankSearch (pyStrip "0000").toList = some 0 ∧
    parse_state_quota_row stateRowZeroRank = none := by decide

/-- C5 (amended): for every STATE row of at least 12 cells, when the rank
cell (column 10) is present and the leftmost 4-to-6-digit run found by the
`\d{4,6}` search has non-zero value `n`, the parser emits exactly one
record and its rank is exactly `n`; when the rank cell is missing or
contains no 4-digit run, the parser emits no record (whatever the row's
length). -/
theorem state_rank_rule :
    (∀ (row : List (Option String)) (s : String) (n : Nat),
      12 ≤ row.length →
      row.getD 10 none = some s →
      rankSearch (pyStrip s).toList = some n →
      n ≠ 0 →
      ∃ rec, parse_state_quota_row row = some rec ∧ rec.rank = some n) ∧
    (∀ row : List (Option String),
      row.getD 10 none = none → parse_state_quota_row row = none) ∧
    (∀ (row : List (Option String)) (s : String),
      row.getD 10 none = some s → rankSearch (pyStrip s).toList = none →
      parse_state_quota_row row = none) := by
  refine ⟨?_, ?_, ?_⟩
  · intro row s n hlen hcell hsearch hn
    simp only [parse_state_quota_row, strippedCell, cellAt, hcell]
    rw [if_neg (by omega), if_neg (by omega)]
    have hne : ¬ pyStrip s = "" := by
      intro he
      rw [he] at hsearch
      exact Option.noConfusion hsearch
    rw [if_neg hne, Option.some_bind, hsearch, Option.some_bind, if_neg hn]
    exact ⟨_, rfl, rfl⟩
  · intro row hcell
    simp only [parse_state_quota_row, strippedCell, cellAt, hcell,
      Option.none_bind]
    split
    · rfl
    split
    · rfl
    · rfl
  · intro row s hcell hsearch
    simp only [parse_state_quota_row, strippedCell, cellAt, hcell]
    split
    · rfl
    split
    · rfl
    · by_cases he : pyStrip s = ""
      · rw [if_pos he]; rfl
      · rw [if_neg he, Option.some_bind, hsearch]; rfl

/-- C5 witness: the amended rule applied to the concrete 12-cell row
`demoStateRow`, whose rank cell `"Rank 25579"` contains the run `25579`. -/
theorem state_rank_rule_witness :
    ∃ rec, parse_state_quota_row demoStateRow = some rec ∧
      rec.rank = some 25579 :=
  state_rank_rule.1 demoStateRow "Rank 25579" 25579 (by decide) (by decide)
    (by decide) (by decide)

/-! ## Claim C1 -/



/-- C1 counterexample: on `mrCounterRow`'s round-1 window the parser emits
a record whose institute is the 2-character cell right after the quota cell
(no length threshold is applied), whose course cell `"Botany"` contains no
medical-course marker token (`MD`/`MS`/`M.D.`/`M.S.`), and whose category
`"FOO"` belongs neither to the known category token set nor to the category
legend — the claimed forward scans exist only in the repository's legacy
root parser, not in `extract_round_data`. -/
theorem multi_round_scan_counterexample :
    extract_round_data mrCounterRow 7 1 1 5 = some mrCounterRec ∧
    multiRoundRowRecords mrCounterRow 3 =
      [{ mrCounterRec with page := some 3 }] ∧
    mrCounterRec.college_name = some "XY" ∧
    "XY".toList.length = 2 ∧
    mrCounterRec.course = some "Botany" ∧
    pyContains "Botany" "MD" = false ∧
    pyContains "Botany" "MS" = false ∧
    pyContains "Botany" "M.D." = false ∧
    pyContains "Botany" "M.S." = false ∧
    mrCounterRec.category = some "FOO" ∧
    "FOO" ∉ knownCategoryTokens ∧
    categoryMappings.lookup "FOO" = none := by decide

/-- C1 (amended): every record `extract_round_data` emits from a round
window comes from a window whose quota cell is present and non-placeholder,
and takes its institute from the fixed cell immediately after the quota
cell and its course from the fixed cell two after it — each present and
non-placeholder, but whatever their length or content, with no length
threshold, marker-token scan, or category-set test; its category, when
present, is the normalized content of the fixed cell four after the quota
cell (unmapped tokens passing through), and the record carries the shared
rank, the window's round, and year 2024. -/
theorem multi_round_fixed_offsets :
    ∀ (row : List (Option String)) (rank rn sc ec : Nat)
      (rec : AdmissionRecord),
      extract_round_data row rank rn sc ec = some rec →
      rec.rank = some rank ∧ rec.round = rn ∧ rec.year = 2024 ∧
      (∃ q, row.getD sc none = some q ∧ isPlaceholder (pyStrip q) = false ∧
        rec.quota = normalize_quota (some (pyStrip q))) ∧
      (∃ c, row.getD (sc + 1) none = some c ∧
        isPlaceholder (pyStrip c) = false ∧
        rec.college_name = some (pyStrip c)) ∧
      (∃ k, row.getD (sc + 2) none = some k ∧
        isPlaceholder (pyStrip k) = false ∧
        rec.course = some (pyStrip k)) ∧
      (rec.category = none ∨ ∃ g, row.getD (sc + 4) none = some g ∧
        rec.category = some (normalize_category (some (pyStrip g)))) := by
  intro row rank rn sc ec rec h
  simp only [extract_round_data, cellAt] at h
  split at h
  · exact absurd h (by simp)
  cases hq : row.getD sc none with
  | none => rw [hq, Option.none_bind] at h; exact absurd h (by simp)
  | some q =>
    rw [hq, Option.some_bind] at h
    split at h
    · exact absurd h (by simp)
    split at h
    · exact absurd h (by simp)
    rename_i hqe hqp
    split at h
    · rename_i hcond
      rw [Bool.and_eq_true] at hcond
      obtain ⟨hcol, hcrs⟩ := hcond
      obtain rfl : _ = rec := Option.some.inj h
      refine ⟨rfl, rfl, rfl, ⟨q, rfl, by simpa using hqp, rfl⟩, ?_, ?_, ?_⟩
      · cases hc : row.getD (sc + 1) none with
        | none => rw [hc, Option.none_bind] at hcol; exact absurd hcol (by simp)
        | some c =>
          rw [hc, Option.some_bind] at hcol
          by_cases hp : isPlaceholder (pyStrip c) = true
          · rw [if_pos hp] at hcol; exact absurd hcol (by simp)
          · refine ⟨c, rfl, by simpa using hp, ?_⟩
            dsimp only
            rw [Option.some_bind, if_neg hp]
      · cases hc : row.getD (sc + 2) none with
        | none => rw [hc, Option.none_bind] at hcrs; exact absurd hcrs (by simp)
        | some k =>
          rw [hc, Option.some_bind] at hcrs
          by_cases hp : isPlaceholder (pyStrip k) = true
          · rw [if_pos hp] at hcrs; exact absurd hcrs (by simp)
          · refine ⟨k, rfl, by simpa using hp, ?_⟩
            dsimp only
            rw [Option.some_bind, if_neg hp]
      · cases hg : row.getD (sc + 4) none with
        | none =>
          left; dsimp only; rw [Option.none_bind]
        | some g =>
          by_cases hp : isPlaceholder (pyStrip g) = true
          · left; dsimp only; rw [Option.some_bind, if_pos hp]
          · right
            refine ⟨g, rfl, ?_⟩
            dsimp only
            rw [Option.some_bind, if_neg hp]
    · exact absurd h (by simp)

/-- C1 witness: the amended fixed-offset rule applied to the concrete row
`mrCounterRow` and its emitted record. -/
theorem multi_round_fixed_offsets_witness :
    mrCounterRec.rank = some 7 ∧ mrCounterRec.round = 1 ∧
    mrCounterRec.year = 2024 ∧
    (∃ q, mrCounterRow.getD 1 none = some q ∧
      isPlaceholder (pyStrip q) = false ∧
      mrCounterRec.quota = normalize_quota (some (pyStrip q))) ∧
    (∃ c, mrCounterRow.getD 2 none = some c ∧
      isPlaceholder (pyStrip c) = false ∧
      mrCounterRec.college_name = some (pyStrip c)) ∧
    (∃ k, mrCounterRow.getD 3 none = some k ∧
      isPlaceholder (pyStrip k) = false ∧
      mrCounterRec.course = some (pyStrip k)) ∧
    (mrCounterRec.category = none ∨ ∃ g, mrCounterRow.getD 5 none = some g ∧
      mrCounterRec.category = some (normalize_category (some (pyStrip g)))) :=
  multi_round_fixed_offsets mrCounterRow 7 1 1 5 mrCounterRec (by decide)

/-! ## Store-model lemmas -/

/-- Inserting admission records never touches the `processed_files` table. -/
theorem insertRecords_processed (l : List AdmissionRecord) :
    ∀ s : Store, (insertRecords s l).processed = s.processed := by
  induction l with
  | nil => intro s; rfl
  | cons a t ih => intro s; exact ih _

/-- Inserting admission records never touches `verification_records`. -/
theorem insertRecords_verifs (l : List AdmissionRecord) :
    ∀ s : Store, (insertRecords s l).verifs = s.verifs := by
  induction l with
  | nil => intro s; rfl
  | cons a t ih => intro s; exact ih _

/-- Rows already in `counselling_data` survive further inserts. -/
theorem insertRecords_counselling_sub (l : List AdmissionRecord) :
    ∀ (s : Store) (p : Nat × AdmissionRecord),
      p ∈ s.counselling → p ∈ (insertRecords s l).counselling := by
  induction l with
  | nil => intro s p hp; exact hp
  | cons a t ih =>
    intro s p hp
    exact ih _ _ (by simp [hp])

/-- Every streamed record ends up in `counselling_data` under some id. -/
theorem insertRecords_mem_of_mem (l : List AdmissionRecord) :
    ∀ (s : Store) (r : AdmissionRecord), r ∈ l →
      ∃ id, (id, r) ∈ (insertRecords s l).counselling := by
  induction l with
  | nil => intro s r hr; cases hr
  | cons a t ih =>
    intro s r hr
    rcases List.mem_cons.mp hr with rfl | hr
    · exact ⟨s.nextId, insertRecords_counselling_sub t _ _ (by simp)⟩
    · exact ih _ _ hr

/-- A `processed_files` hit makes `process_pdf_file` a complete no-op. -/
theorem processPdfFile_skip {doc : List AdmissionRecord} {fname ftype : String}
    {ev : Bool} {r : SampleRate} {s : Store}
    (h : s.processed.any (fun p => p.filename == fname) = true) :
    processPdfFile doc fname ftype ev r s = (s, []) := by
  simp [processPdfFile, h]

/-- An empty record stream changes nothing and commits nothing. -/
theorem processPdfFile_nil (fname ftype : String) (ev : Bool) (r : SampleRate)
    (s : Store) : processPdfFile [] fname ftype ev r s = (s, []) := by
  by_cases h : s.processed.any (fun p => p.filename == fname) = true
  · exact processPdfFile_skip h
  · simp [processPdfFile, h, chunks100, chunksAux, insertRecords]

/-- After a fresh non-empty document is processed, its filename is listed in
`processed_files`. -/
theorem processPdfFile_marks {doc : List AdmissionRecord} {fname ftype : String}
    {ev : Bool} {r : SampleRate} {s : Store}
    (h : s.processed.any (fun p => p.filename == fname) = false)
    (hne : doc ≠ []) :
    (processPdfFile doc fname ftype ev r s).1.processed.any
      (fun p => p.filename == fname) = true := by
  have hlen : ¬ doc.length = 0 := by simpa [List.length_eq_zero] using hne
  simp only [processPdfFile, h]
  rw [if_neg (by simp), if_neg hlen]
  cases ev
  · rw [if_neg (by simp)]
    simp [List.any_append, insertRecords_processed]
  · rw [if_pos rfl]
    simp [List.any_append, insertRecords_processed]

/-! ## Claim C2 -/

/-- C2: re-ingesting a document whose base filename already has a
`processed_files` row is a no-op — the run performs no extraction, no
insert and no commit (empty event trace) and the store is returned
unchanged; consequently processing the same document twice in sequence
leaves the same store state as processing it once. -/
theorem ingest_idempotent :
    (∀ (doc : List AdmissionRecord) (fname ftype : String) (ev : Bool)
        (r : SampleRate) (s : Store),
      s.processed.any (fun p => p.filename == fname) = true →
      processPdfFile doc fname ftype ev r s = (s, [])) ∧
    (∀ (doc : List AdmissionRecord) (fname ftype : String) (ev : Bool)
        (r : SampleRate) (s : Store),
      (processPdfFile doc fname ftype ev r
        (processPdfFile doc fname ftype ev r s).1).1 =
      (processPdfFile doc fname ftype ev r s).1) := by
  constructor
  · intro doc fname ftype ev r s h
    exact processPdfFile_skip h
  · intro doc fname ftype ev r s
    by_cases h : s.processed.any (fun p => p.filename == fname) = true
    · rw [processPdfFile_skip h]
      dsimp only
      rw [processPdfFile_skip h]
    · rw [Bool.not_eq_true] at h
      by_cases hd : doc = []
      · subst hd
        rw [processPdfFile_nil]
      · rw [processPdfFile_skip (processPdfFile_marks h hd)]

/-- C2 witness: a store that already lists `a.pdf` is returned untouched
with an empty trace. -/
theorem ingest_idempotent_witness :
    processPdfFile [demoStateRec] "a.pdf" "state" false ⟨1, 10⟩
      { processed := [{ id := 1, filename := "a.pdf", file_type := "state",
                        records_count := 5, sample_size := none }] } =
    ({ processed := [{ id := 1, filename := "a.pdf", file_type := "state",
                       records_count := 5, sample_size := none }] }, []) :=
  ingest_idempotent.1 [demoStateRec] "a.pdf" "state" false ⟨1, 10⟩ _ (by decide)

/-! ## Claim C6 -/

/-- C6: a document whose record stream yields zero insertable records
leaves the store untouched and never gets a `processed_files` row (so it
stays eligible for a full rerun); for a fresh non-empty document the trace
is exactly the batch commits followed by the `processed_files` insert — the
row is written only after every batch commit, and its presence in the trace
implies at least one record was inserted. -/
theorem processed_file_only_after_batches :
    (∀ (fname ftype : String) (ev : Bool) (r : SampleRate) (s : Store),
      processPdfFile [] fname ftype ev r s = (s, [])) ∧
    (∀ (doc : List AdmissionRecord) (fname ftype : String) (ev : Bool)
        (r : SampleRate) (s : Store),
      s.processed.any (fun p => p.filename == fname) = false → doc ≠ [] →
      (processPdfFile doc fname ftype ev r s).2.take (chunks100 doc).length =
        (chunks100 doc).map (fun b => IngestEvent.commitBatch b.length) ∧
      (processPdfFile doc fname ftype ev r s).2.get? (chunks100 doc).length =
        some (IngestEvent.insertProcessedFile fname)) ∧
    (∀ (doc : List AdmissionRecord) (fname ftype : String) (ev : Bool)
        (r : SampleRate) (s : Store),
      IngestEvent.insertProcessedFile fname ∈
        (processPdfFile doc fname ftype ev r s).2 → doc ≠ []) := by
  refine ⟨processPdfFile_nil, ?_, ?_⟩
  · intro doc fname ftype ev r s h hne
    have hlen : ¬ doc.length = 0 := by simpa [List.length_eq_zero] using hne
    simp only [processPdfFile, h]
    rw [if_neg (by simp), if_neg hlen]
    cases ev
    · rw [if_neg (by simp)]
      constructor
      · dsimp only
        rw [← List.length_map (chunks100 doc)
          (fun b => IngestEvent.commitBatch b.length), List.take_left]
      · dsimp only
        rw [← List.length_map (chunks100 doc)
          (fun b => IngestEvent.commitBatch b.length)]
        rw [List.get?_append_right (Nat.le_refl _), Nat.sub_self]
        rfl
    · rw [if_pos rfl]
      constructor
      · dsimp only
        rw [← List.length_map (chunks100 doc)
          (fun b => IngestEvent.commitBatch b.length), List.take_left]
      · dsimp only
        rw [← List.length_map (chunks100 doc)
          (fun b => IngestEvent.commitBatch b.length)]
        rw [List.get?_append_right (Nat.le_refl _), Nat.sub_self]
        rfl
  · intro doc fname ftype ev r s hmem
    intro hd
    subst hd
    rw [processPdfFile_nil] at hmem
    simp at hmem

/-- C6 witness: the trace shape applied to a concrete one-record document
against an empty store. -/
theorem processed_file_only_after_batches_witness :
    (processPdfFile [demoStateRec] "b.pdf" "state" false ⟨1, 10⟩ {}).2.take
        (chunks100 [demoStateRec]).length =
      (chunks100 [demoStateRec]).map
        (fun b => IngestEvent.commitBatch b.length) ∧
    (processPdfFile [demoStateRec] "b.pdf" "state" false ⟨1, 10⟩ {}).2.get?
        (chunks100 [demoStateRec]).length =
      some (IngestEvent.insertProcessedFile "b.pdf") :=
  processed_file_only_after_batches.2.1 [demoStateRec] "b.pdf" "state" false
    ⟨1, 10⟩ {} (by decide) (by decide)

/-! ## Claim C4 -/



/-- Every index Python's `range(0, n, k)` yields is below `n`. -/
theorem pyRange_lt {n k i : Nat} (hk : 1 ≤ k) (hi : i ∈ pyRange n k) :
    i < n := by
  unfold pyRange at hi
  rw [List.mem_range'] at hi
  obtain ⟨j, hj, rfl⟩ := hi
  have h3 : k * ((n + k - 1) / k) ≤ n + k - 1 := by
    rw [Nat.mul_comm]; exact Nat.div_mul_le_self _ _
  have h5 : k * j + k ≤ k * ((n + k - 1) / k) := by
    have := Nat.mul_le_mul_left k (Nat.succ_le_of_lt hj)
    rwa [Nat.mul_succ] at this
  have hn : 1 ≤ n := by
    rcases Nat.eq_zero_or_pos n with h0 | h
    · subst h0
      have hz : (0 + k - 1) / k = 0 := Nat.div_eq_of_lt (by omega)
      rw [hz] at hj
      exact absurd hj (by omega)
    · exact h
  have h6 : k * j + k ≤ n + k - 1 := le_trans h5 h3
  omega

/-- When `f` succeeds on every element, `filterMap` keeps the whole list. -/
theorem length_filterMap_of_isSome {α β : Type} (f : α → Option β) :
    ∀ l : List α, (∀ a ∈ l, (f a).isSome = true) →
      (l.filterMap f).length = l.length := by
  intro l
  induction l with
  | nil => intro _; rfl
  | cons a t ih =>
    intro h
    rcases Option.isSome_iff_exists.mp (h a (by simp)) with ⟨b, hb⟩
    rw [List.filterMap_cons_some hb]
    simp [ih (fun x hx => h x (by simp [hx]))]

/-- A complete record satisfies the verification lookup's SQL match against
its own stored copy. -/
theorem matchesLookup_self (rec : AdmissionRecord)
    (h : completeRec rec = true) : matchesLookup rec rec = true := by
  simp only [completeRec, Bool.and_eq_true] at h
  obtain ⟨⟨⟨h1, h2⟩, h3⟩, _⟩ := h
  rcases Option.isSome_iff_exists.mp h1 with ⟨a, ha⟩
  rcases Option.isSome_iff_exists.mp h2 with ⟨b, hb⟩
  rcases Option.isSome_iff_exists.mp h3 with ⟨c, hc⟩
  simp [matchesLookup, sqlEqSome, ha, hb, hc]

/-- The `ORDER BY id DESC LIMIT 1` lookup succeeds for any complete record
that was inserted. -/
theorem lookupLatest_isSome (rows : List (Nat × AdmissionRecord))
    (rec : AdmissionRecord) (hmem : ∃ id, (id, rec) ∈ rows)
    (hc : completeRec rec = true) :
    (lookupLatest rows rec).isSome = true := by
  obtain ⟨id, hid⟩ := hmem
  unfold lookupLatest
  have : (rows.reverse.find? (fun p => matchesLookup p.2 rec)).isSome = true :=
    List.find?_isSome.mpr
      ⟨(id, rec), List.mem_reverse.mpr hid, matchesLookup_self rec hc⟩
  rcases Option.isSome_iff_exists.mp this with ⟨p, hp⟩
  rw [hp]
  rfl

/-- C4 counterexample: the implemented stride is `int(1/r)` (truncation),
not `round(1/r)`.  At rate `r = 3/20 = 0.15` the code strides by
`int(20/3) = 6` while the claim's `round(20/3) = 7`; over a 20-record
stream the code samples indices `[0, 6, 12, 18]` (4 verification records),
the claim predicts `[0, 7, 14]` (3). -/
theorem verification_stride_counterexample :
    verifStride ⟨3, 20⟩ = 6 ∧
    specRoundStride ⟨3, 20⟩ = 7 ∧
    pyRange 20 (verifStride ⟨3, 20⟩) = [0, 6, 12, 18] ∧
    pyRange 20 (specRoundStride ⟨3, 20⟩) = [0, 7, 14] ∧
    (processPdfFile
        ((List.range 20).map (fun i =>
          { rank := some (1000 + i), college_name := some "College C",
            course := some "MD Medicine", page := some 1 }))
        "c.pdf" "all_india" true ⟨3, 20⟩ {}).1.verifs.length = 4 := by decide

/-- C4 (amended): with verification enabled on a fresh non-empty document
whose records all carry rank, college, course and a page tag, the sampler
creates exactly one VerificationRecord per index of
`range(0, n, int(1/r))` — stride `⌊1/r⌋`, truncated, not rounded; sampling
is a pure function of the stream and the rate, so re-running it on the
same input ordering reproduces the same sample.  At rate `1/10` the stride
is 10 and a 1000-record stream yields exactly 100 samples. -/
theorem verification_sampling_rule :
    (∀ (doc : List AdmissionRecord) (fname ftype : String) (r : SampleRate)
        (s : Store),
      s.processed.any (fun p => p.filename == fname) = false →
      doc ≠ [] →
      1 ≤ verifStride r →
      (∀ rec ∈ doc, completeRec rec = true) →
      (processPdfFile doc fname ftype true r s).1.verifs.length =
        s.verifs.length + (pyRange doc.length (verifStride r)).length) ∧
    verifStride ⟨1, 10⟩ = 10 ∧
    (pyRange 1000 (verifStride ⟨1, 10⟩)).length = 100 := by
  refine ⟨?_, by decide, by decide⟩
  intro doc fname ftype r s h hne hk hcomp
  have hlen : ¬ doc.length = 0 := by simpa [List.length_eq_zero] using hne
  simp only [processPdfFile, h]
  rw [if_neg (by simp), if_neg hlen, if_pos trivial]
  dsimp only
  rw [List.length_append, insertRecords_verifs]
  congr 1
  unfold verificationRows
  apply length_filterMap_of_isSome
  intro idx hidx
  have hi : idx < doc.length := pyRange_lt hk hidx
  have hrec : doc.get? idx = some (doc.get ⟨idx, hi⟩) := List.get?_eq_get hi
  rw [hrec, Option.some_bind]
  have hmem : doc.get ⟨idx, hi⟩ ∈ doc := List.get_mem doc idx hi
  have hcr := hcomp _ hmem
  have hlk := lookupLatest_isSome (insertRecords s doc).counselling _
    (insertRecords_mem_of_mem doc s _ hmem) hcr
  rcases Option.isSome_iff_exists.mp hlk with ⟨cid, hcid⟩
  rw [hcid, Option.some_bind]
  have hpg : hasPage (doc.get ⟨idx, hi⟩) = true := by
    simp only [completeRec, Bool.and_eq_true] at hcr
    exact hcr.2
  rw [if_pos hpg]
  rfl

/-- C4 witness: the amended sampling rule applied to a concrete 3-record
complete document at rate 1/2 against the empty store. -/
theorem verification_sampling_rule_witness :
    (processPdfFile
        [{ rank := some 11, college_name := some "College A",
           course := some "MD One", page := some 1 },
         { rank := some 12, college_name := some "College B",
           course := some "MD Two", page := some 1 },
         { rank := some 13, college_name := some "College C",
           course := some "MD Three", page := some 2 }]
        "w.pdf" "all_india" true ⟨1, 2⟩ {}).1.verifs.length =
      (({} : Store)).verifs.length +
        (pyRange
          ([{ rank := some 11, college_name := some "College A",
              course := some "MD One", page := some 1 },
            { rank := some 12, college_name := some "College B",
              course := some "MD Two", page := some 1 },
            { rank := some 13, college_name := some "College C",
              course := some "MD Three", page := some 2 }] :
            List AdmissionRecord).length
          (verifStride ⟨1, 2⟩)).length :=
  verification_sampling_rule.1 _ "w.pdf" "all_india" ⟨1, 2⟩ {} (by decide)
    (by decide) (by decide) (by decide)
